import Mathlib

/-!
A verification development for the subreddit-trends repository.

The Python modules `src/subreddit_trends/reddit_scraper.py` and
`src/subreddit_trends/storage_backends.py` are shallowly embedded below:
pure computations become Lean functions, attribute lookups with `getattr`
defaults become `Option` fields, Python exceptions become an error sum
carried in `Except`, and the in-place mutation of a `ScrapeResult` by the
local storage backend is made explicit by returning the final state of the
object alongside the description of the write performed.
-/

namespace SubredditTrends

/-- Python exceptions that the embedded code paths can raise. -/
inductive PyError where
  /-- `ValueError(msg)` -/
  | valueError (msg : String)
  /-- `UnboundLocalError`: a local variable read before any assignment. -/
  | unboundLocalError (name : String)
  /-- `KeyError` from `DataFrame.astype` when a listed column is missing. -/
  | keyError (msg : String)
deriving DecidableEq, Repr

/-- The `gallery_data` attribute of a raw submission: a dict that may or may
not carry an `"items"` list.  Individual gallery items are opaque to the
scraper (only their count matters), hence `Unit`. -/
structure GalleryData where
  items : Option (List Unit)
deriving DecidableEq, Repr

/-- A raw Reddit submission as read by `RedditScraper._parse_submission`.
Fields looked up with `getattr(submission, name, default)` in the source
(`is_gallery`, `gallery_data`, `post_hint`) are `Option`s, `none` meaning
the attribute is absent.  `author` is `none` when the author was deleted.
`upvote_ratio` is a numeric value that is only ever copied through, hence
modelled by `Rat`. -/
structure Submission where
  id : String
  url : String
  permalink : String
  subredditDisplayName : String
  author : Option String
  title : String
  created_utc : Int
  score : Int
  num_comments : Int
  is_gallery : Option Bool
  gallery_data : Option GalleryData
  post_hint : Option String
  upvote_ratio : Rat
deriving DecidableEq, Repr

/-- Stand-in for `datetime.fromtimestamp(e).strftime("%Y-%m-%d %H:%M:%S")`:
within one run the local clock offset is fixed, so the rendering is a pure
function of the epoch seconds; the claims never inspect the digits, only
that the field is a deterministic function of the input. -/
def localTimeFormat (epoch : Int) : String :=
  "t" ++ toString epoch

/-- One normalized row of the output table, with the column types fixed by
the `astype` call of `_parse_submission`. -/
structure Row where
  id : String
  url : String
  permalink : String
  subreddit : String
  author : Option String
  title : String
  created_utc : String
  post_type : String
  score : Int
  num_comments : Int
  is_gallery : Bool
  num_of_images : Int
  upvote_ratio : Rat
deriving DecidableEq, Repr

/-- The column names of the output table, in the order the row dict of
`_parse_submission` lists them. -/
def schemaColumns : List String :=
  ["id", "url", "permalink", "subreddit", "author", "title", "created_utc",
   "post_type", "score", "num_comments", "is_gallery", "num_of_images",
   "upvote_ratio"]

/-- A pandas DataFrame, reduced to what the embedded code observes: the
column list and the row list.  `pd.DataFrame([])` has no columns at all,
which `mkDataFrame` reproduces. -/
structure DataFrame where
  columns : List String
  rows : List Row
deriving DecidableEq, Repr

/-- `pd.DataFrame(data)` for the list-of-dicts `data` built by the loop:
the columns are the dict keys (the full schema) when the list is nonempty,
and empty when it is empty. -/
def mkDataFrame (rows : List Row) : DataFrame :=
  { columns := if rows.isEmpty then [] else schemaColumns, rows := rows }

/-- `df.empty` in pandas: true when the frame has no rows. -/
def DataFrame.empty (df : DataFrame) : Bool :=
  df.rows.isEmpty

/-- `df.astype({...})` over the full schema: raises `KeyError` when a listed
column is missing; the values themselves are already typed by `Row`. -/
def astypeSchema (df : DataFrame) : Except PyError DataFrame :=
  if df.columns = schemaColumns then .ok df
  else .error (.keyError "column not found in DataFrame")

/-- The per-submission body of the loop of `_parse_submission`: the
`post_type` / `num_of_images` decision followed by the field extraction
into one row dict. -/
def parseRow (s : Submission) : Row :=
  let is_gallery := s.is_gallery.getD false
  let pt_num : String × Int :=
    if is_gallery then
      ("image_gallery",
        Int.ofNat (match s.gallery_data with
          | none => ([] : List Unit)
          | some gd => gd.items.getD []).length)
    else if s.post_hint.getD "" = "image" then
      ("single_image", 1)
    else
      ("other", 0)
  { id := s.id
    url := s.url
    permalink := s.permalink
    subreddit := s.subredditDisplayName
    author := s.author
    title := s.title
    created_utc := localTimeFormat s.created_utc
    post_type := pt_num.1
    score := s.score
    num_comments := s.num_comments
    is_gallery := is_gallery
    num_of_images := pt_num.2
    upvote_ratio := s.upvote_ratio }

/-- The result object wrapping the table with the fetch metadata.
`time_filter` is `Option String`: the dataclass field holds `None` for
filterless fetch methods. -/
structure ScrapeResult where
  df : DataFrame
  api_method : String
  subreddit : String
  time_filter : Option String
  timestamp : String
deriving DecidableEq, Repr

/-- The `for submission in submissions` loop of `_parse_submission`.
`data` is the accumulated dict list and `df` the loop-local DataFrame
variable, `none` while still unassigned.  Faithful to the source, the
DataFrame construction and the `astype` cast sit INSIDE the loop body, so
`df` is rebuilt from the whole of `data` on every iteration and stays
unassigned when the input is empty. -/
def parseLoop : List Submission → List Row → Option DataFrame →
    Except PyError (Option DataFrame)
  | [], _, df => .ok df
  | s :: rest, data, _ =>
    let data' := data ++ [parseRow s]
    match astypeSchema (mkDataFrame data') with
    | .error e => .error e
    | .ok df' => parseLoop rest data' (some df')

/-- `RedditScraper._parse_submission`.  The wall-clock timestamp captured at
entry is passed in as `timestamp`.  Reading `df` after the loop raises
`UnboundLocalError` when the loop body never ran. -/
def parseSubmission (submissions : List Submission) (subreddit_name : String)
    (api_method : String) (time_filter : Option String)
    (timestamp : String) : Except PyError ScrapeResult :=
  match parseLoop submissions [] none with
  | .error e => .error e
  | .ok none => .error (.unboundLocalError "df")
  | .ok (some df) =>
    .ok { df := df, api_method := api_method, subreddit := subreddit_name,
          time_filter := time_filter, timestamp := timestamp }

/-- Python's `str()` rendering of an `Option String` inside an f-string:
`None` prints as the four characters `"None"`. -/
def pyStr : Option String → String
  | none => "None"
  | some s => s

/-- The effect of one `LocalStorage.save_parquet` / `DataSaver.save_local_parquet`
call: the final state of the (mutated-in-place) result object, and the file
write performed, given as the path — a list of segments rooted at the
repository base directory — together with the frame serialised to it. -/
structure LocalSave where
  result : ScrapeResult
  path : List String
  written : DataFrame
deriving DecidableEq, Repr

/-- `LocalStorage.save_parquet` from `storage_backends.py`.  `baseDir` is the
segment list of `pathlib.Path(__file__).resolve().parents[2]`, the
repository root.  Faithful to the source: the empty check raises
`ValueError`, a `None` `time_filter` is overwritten on the result object
itself with the sentinel, and the file name is then rendered from the
(possibly mutated) field. -/
def LocalStorage.save_parquet (baseDir : List String) (result : ScrapeResult) :
    Except PyError LocalSave :=
  if result.df.empty then
    .error (.valueError "DataFrame is empty. No data to save.")
  else
    let dataDir := baseDir ++ ["data", result.subreddit, result.api_method]
    let result' :=
      if result.time_filter = none then
        { result with time_filter := some "at_point_in_time" }
      else result
    let fileName :=
      result'.api_method ++ "_" ++ pyStr result'.time_filter ++ "_"
        ++ result'.timestamp ++ ".parquet"
    .ok { result := result', path := dataDir ++ [fileName],
          written := result'.df }

/-- `DataSaver.save_local_parquet` from `reddit_scraper.py`: the older copy
of the local save routine, embedded from its own source text.  Both modules
sit in `src/subreddit_trends/`, so `parents[2]` resolves to the same
repository root `baseDir`. -/
def DataSaver.save_local_parquet (baseDir : List String) (result : ScrapeResult) :
    Except PyError LocalSave :=
  if result.df.empty then
    .error (.valueError "DataFrame is empty. No data to save.")
  else
    let dataDir := baseDir ++ ["data", result.subreddit, result.api_method]
    let result' :=
      if result.time_filter = none then
        { result with time_filter := some "at_point_in_time" }
      else result
    let fileName :=
      result'.api_method ++ "_" ++ pyStr result'.time_filter ++ "_"
        ++ result'.timestamp ++ ".parquet"
    .ok { result := result', path := dataDir ++ [fileName],
          written := result'.df }

/-- The effect of one `LocalS3Storage.save_parquet` call: the final state of
the result object and the single `put_object` performed. -/
structure S3Save where
  result : ScrapeResult
  bucket : String
  objectName : String
  written : DataFrame
  contentType : String
deriving DecidableEq, Repr

/-- `LocalS3Storage.save_parquet` from `storage_backends.py`.  Faithful to
the source: there is no empty check and no sentinel substitution — the
object name interpolates `result.time_filter` directly, so an absent filter
renders as `"None"`. -/
def LocalS3Storage.save_parquet (bucket : String) (result : ScrapeResult) :
    Except PyError S3Save :=
  .ok { result := result
        bucket := bucket
        objectName :=
          result.subreddit ++ "/" ++ result.api_method ++ "/"
            ++ pyStr result.time_filter ++ "/" ++ result.timestamp ++ ".parquet"
        written := result.df
        contentType := "application/octet-stream" }

/-! ### Derived path expressions and helper predicates -/

/-- The gallery item count expression of `_parse_submission`:
`len(getattr(submission, "gallery_data", {}).get("items", []))`. -/
def galleryCount (s : Submission) : Int :=
  Int.ofNat (match s.gallery_data with
    | none => ([] : List Unit)
    | some gd => gd.items.getD []).length

/-- The local file name of §6 of the spec:
`<fetch_method>_<time_filter-or-sentinel>_<fetched_at>.parquet`. -/
def localFileName (r : ScrapeResult) : String :=
  r.api_method ++ "_" ++ r.time_filter.getD "at_point_in_time" ++ "_"
    ++ r.timestamp ++ ".parquet"

/-- The local destination path of §6 of the spec, as segments:
`<data-root>/<source_collection>/<fetch_method>/<file name>`. -/
def localPath (baseDir : List String) (r : ScrapeResult) : List String :=
  baseDir ++ ["data", r.subreddit, r.api_method, localFileName r]

/-- `pat` occurs as a contiguous substring of `s`. -/
def strContains (pat s : String) : Prop :=
  pat.toList <:+: s.toList

instance (pat s : String) : Decidable (strContains pat s) :=
  inferInstanceAs (Decidable (pat.toList <:+: s.toList))

/-! ### Concrete fixtures -/

/-- A plain link submission: no `is_gallery` attribute, no `post_hint`. -/
def subPlain : Submission :=
  { id := "p1", url := "https://example.com/a", permalink := "/r/programming/p1",
    subredditDisplayName := "programming", author := some "alice",
    title := "a plain link", created_utc := 1700000000, score := 10,
    num_comments := 2, is_gallery := none, gallery_data := none,
    post_hint := none, upvote_ratio := 1 }

/-- A single-image submission: `is_gallery = False`, `post_hint = "image"`. -/
def subImage : Submission :=
  { subPlain with id := "p2", post_hint := some "image", is_gallery := some false }

/-- A gallery submission whose `gallery_data` attribute is absent. -/
def subGalleryNoData : Submission :=
  { subPlain with id := "p3", is_gallery := some true, gallery_data := none }

/-- A gallery submission with exactly one gallery item. -/
def subGalleryOne : Submission :=
  { subPlain with id := "p4", is_gallery := some true, gallery_data := some { items := some [()] } }

/-- A zero-row result, as a "hot" fetch of an empty subreddit would build it
had `_parse_submission` not raised (cf. `C3_empty_fetch_raises`). -/
def emptyResult : ScrapeResult :=
  { df := mkDataFrame [], api_method := "hot", subreddit := "emptysub",
    time_filter := none, timestamp := "20240101_000000" }

/-- A one-row "hot" result: `time_filter` is absent. -/
def hotResult : ScrapeResult :=
  { df := mkDataFrame [parseRow subImage], api_method := "hot",
    subreddit := "programming", time_filter := none,
    timestamp := "20240101_120000" }

/-- A one-row "top" result with a present time filter. -/
def topResultA : ScrapeResult :=
  { df := mkDataFrame [parseRow subPlain], api_method := "top",
    subreddit := "programming", time_filter := some "day",
    timestamp := "20240101_120000" }

/-- `topResultA` fetched one second later. -/
def topResultB : ScrapeResult :=
  { topResultA with timestamp := "20240101_120001" }

/-- The outcome of `LocalStorage.save_parquet` on `hotResult`. -/
def hotLocalOut : LocalSave :=
  { result := { hotResult with time_filter := some "at_point_in_time" },
    path := localPath ["root"] hotResult,
    written := hotResult.df }

/-- The outcome of `LocalS3Storage.save_parquet` on `hotResult`. -/
def hotS3Out : S3Save :=
  { result := hotResult, bucket := "programming",
    objectName := "programming/hot/None/20240101_120000.parquet",
    written := hotResult.df, contentType := "application/octet-stream" }

/-! ### Helper lemmas shared by the claim theorems -/

theorem localSave_empty (baseDir : List String) (r : ScrapeResult)
    (h : r.df.rows = []) :
    LocalStorage.save_parquet baseDir r =
      .error (.valueError "DataFrame is empty. No data to save.") := by
  unfold LocalStorage.save_parquet DataFrame.empty
  simp [h]

theorem localSave_ok (baseDir : List String) (r : ScrapeResult)
    (h : r.df.rows ≠ []) :
    LocalStorage.save_parquet baseDir r =
      .ok { result := { r with
              time_filter := some (r.time_filter.getD "at_point_in_time") },
            path := localPath baseDir r,
            written := r.df } := by
  rcases htf : r.time_filter with _ | tf
  · unfold LocalStorage.save_parquet DataFrame.empty localPath localFileName
    simp [h, htf, pyStr]
  · unfold LocalStorage.save_parquet DataFrame.empty localPath localFileName
    simp [h, htf, pyStr]
    rw [← htf]

theorem s3Save_eq (bucket : String) (r : ScrapeResult) :
    LocalS3Storage.save_parquet bucket r =
      .ok { result := r, bucket := bucket,
            objectName := r.subreddit ++ "/" ++ r.api_method ++ "/"
              ++ pyStr r.time_filter ++ "/" ++ r.timestamp ++ ".parquet",
            written := r.df, contentType := "application/octet-stream" } :=
  rfl

theorem parseRow_gallery (s : Submission) (hg : s.is_gallery.getD false = true) :
    (parseRow s).post_type = "image_gallery" ∧
    (parseRow s).num_of_images = galleryCount s := by
  unfold parseRow galleryCount
  simp [hg]

theorem parseRow_image (s : Submission) (hg : s.is_gallery.getD false = false)
    (hp : s.post_hint.getD "" = "image") :
    (parseRow s).post_type = "single_image" ∧
    (parseRow s).num_of_images = 1 := by
  unfold parseRow
  simp [hg, hp]

theorem parseRow_other (s : Submission) (hg : s.is_gallery.getD false = false)
    (hp : s.post_hint.getD "" ≠ "image") :
    (parseRow s).post_type = "other" ∧ (parseRow s).num_of_images = 0 := by
  unfold parseRow
  simp [hg, hp]

theorem string_mid_cancel (a b s t : String) (h : a ++ s ++ b = a ++ t ++ b) :
    s = t := by
  have hd := congrArg String.data h
  simp only [String.data_append] at hd
  exact congrArg String.mk
    (List.append_cancel_left (List.append_cancel_right hd))

theorem localPath_timestamp_inj (baseDir : List String) (r1 r2 : ScrapeResult)
    (hm : r1.api_method = r2.api_method) (htf : r1.time_filter = r2.time_filter)
    (hts : r1.timestamp ≠ r2.timestamp) :
    localPath baseDir r1 ≠ localPath baseDir r2 := by
  intro h
  unfold localPath at h
  have h4 := List.append_cancel_left h
  simp only [List.cons.injEq, and_true] at h4
  obtain ⟨-, -, -, hf⟩ := h4
  unfold localFileName at hf
  rw [hm, htf] at hf
  exact hts (string_mid_cancel _ _ _ _ hf)

theorem sentinel_in_fileName (r : ScrapeResult) (htf : r.time_filter = none) :
    strContains "at_point_in_time" (localFileName r) := by
  unfold strContains localFileName
  rw [htf]
  have hsplit : (r.api_method ++ "_" ++ ((none : Option String).getD "at_point_in_time")
        ++ "_" ++ r.timestamp ++ ".parquet").toList
      = (r.api_method ++ "_").toList ++ "at_point_in_time".toList
        ++ ("_" ++ r.timestamp ++ ".parquet").toList := by
    simp [String.toList, String.data_append, List.append_assoc, Option.getD]
  rw [hsplit]
  exact List.infix_append _ _ _

/-! ### Claim theorems -/

/-- C1, counterexample: a zero-row Scrape Result saved through
`LocalS3Storage.save_parquet` raises no error at all — the upload is
performed — so the claim that every Storage Backend variant raises the
empty-result error and performs no write is false on the code. -/
theorem C1_counterexample :
    emptyResult.df.rows = [] ∧
    LocalS3Storage.save_parquet "emptysub" emptyResult =
      .ok { result := emptyResult, bucket := "emptysub",
            objectName := "emptysub/hot/None/20240101_000000.parquet",
            written := emptyResult.df,
            contentType := "application/octet-stream" } :=
  ⟨rfl, rfl⟩

/-- C1, amended: on a Scrape Result whose table has zero rows,
`LocalStorage.save_parquet` raises the empty-result error (`ValueError`)
and performs no write, while `LocalS3Storage.save_parquet` performs the
upload without raising. -/
theorem C1_empty_save (baseDir : List String) (bucket : String)
    (r : ScrapeResult) (h : r.df.rows = []) :
    LocalStorage.save_parquet baseDir r =
      .error (.valueError "DataFrame is empty. No data to save.") ∧
    LocalS3Storage.save_parquet bucket r =
      .ok { result := r, bucket := bucket,
            objectName := r.subreddit ++ "/" ++ r.api_method ++ "/"
              ++ pyStr r.time_filter ++ "/" ++ r.timestamp ++ ".parquet",
            written := r.df, contentType := "application/octet-stream" } :=
  ⟨localSave_empty baseDir r h, s3Save_eq bucket r⟩

/-- C1, witness: the amended statement evaluated on the concrete zero-row
result `emptyResult`. -/
theorem C1_witness :
    LocalStorage.save_parquet ["root"] emptyResult =
      .error (.valueError "DataFrame is empty. No data to save.") :=
  (C1_empty_save ["root"] "emptysub" emptyResult rfl).1

/-- C2, counterexample: a nonempty "hot" result with `time_filter = None`
saved through `LocalS3Storage.save_parquet` gets the object name
`programming/hot/None/20240101_120000.parquet`, which does not contain the
sentinel `"at_point_in_time"` anywhere — the time-filter segment is
Python's rendering `"None"`. -/
theorem C2_counterexample :
    hotResult.time_filter = none ∧
    LocalS3Storage.save_parquet "programming" hotResult =
      .ok { result := hotResult, bucket := "programming",
            objectName := "programming/hot/None/20240101_120000.parquet",
            written := hotResult.df,
            contentType := "application/octet-stream" } ∧
    ¬ strContains "at_point_in_time"
        "programming/hot/None/20240101_120000.parquet" :=
  ⟨rfl, rfl, by decide⟩

/-- C2, amended: for a Scrape Result with absent `time_filter`, the Local
backend persists it under the sentinel — the file name contains
`"at_point_in_time"` in place of the missing filter — but the ObjectStore
backend performs no substitution: its object name carries the segment
`"None"` instead. -/
theorem C2_sentinel (baseDir : List String) (bucket : String)
    (r : ScrapeResult) (htf : r.time_filter = none) (h : r.df.rows ≠ []) :
    (LocalStorage.save_parquet baseDir r =
      .ok { result := { r with time_filter := some "at_point_in_time" },
            path := localPath baseDir r, written := r.df } ∧
     strContains "at_point_in_time" (localFileName r)) ∧
    LocalS3Storage.save_parquet bucket r =
      .ok { result := r, bucket := bucket,
            objectName := r.subreddit ++ "/" ++ r.api_method ++ "/"
              ++ "None" ++ "/" ++ r.timestamp ++ ".parquet",
            written := r.df, contentType := "application/octet-stream" } := by
  refine ⟨⟨?_, sentinel_in_fileName r htf⟩, ?_⟩
  · rw [localSave_ok baseDir r h, htf]
    rfl
  · rw [s3Save_eq bucket r, htf]
    rfl

/-- C2, witness: the amended statement evaluated on the concrete "hot"
result `hotResult`, whose `time_filter` is absent. -/
theorem C2_witness :
    (LocalStorage.save_parquet ["root"] hotResult =
      .ok { result := { hotResult with time_filter := some "at_point_in_time" },
            path := localPath ["root"] hotResult, written := hotResult.df } ∧
     strContains "at_point_in_time" (localFileName hotResult)) ∧
    LocalS3Storage.save_parquet "programming" hotResult =
      .ok { result := hotResult, bucket := "programming",
            objectName := hotResult.subreddit ++ "/" ++ hotResult.api_method
              ++ "/" ++ "None" ++ "/" ++ hotResult.timestamp ++ ".parquet",
            written := hotResult.df,
            contentType := "application/octet-stream" } :=
  C2_sentinel ["root"] "programming" hotResult rfl (by decide)

/-- C3: on an empty submissions iterable (the API returned zero records),
`_parse_submission` does NOT return a zero-row Scrape Result — the local
variable `df` is only assigned inside the loop body, so the function
raises `UnboundLocalError` when read after a loop that never ran.  The
spec (§4.2 and the example scenario) says the fetch must not raise, so
this is a bug in the code. -/
theorem C3_empty_fetch_raises :
    parseSubmission [] "emptysub" "hot" none "20240101_000000" =
      .error (.unboundLocalError "df") :=
  rfl

/-- C4, counterexample: `LocalStorage.save_parquet` mutates the passed-in
Scrape Result — on `hotResult`, whose `time_filter` is `None` before the
call, the field is `"at_point_in_time"` after it. -/
theorem C4_counterexample :
    hotResult.time_filter = none ∧
    (LocalStorage.save_parquet ["root"] hotResult).toOption.map
        (fun o => o.result.time_filter) = some (some "at_point_in_time") :=
  ⟨rfl, rfl⟩

/-- C4, amended: a save leaves every field of the passed-in Scrape Result
unchanged EXCEPT that the local save routines (`LocalStorage.save_parquet`
and `DataSaver.save_local_parquet`) overwrite an absent `time_filter` with
the sentinel `"at_point_in_time"`; `df`, `api_method`, `subreddit` and
`timestamp` are never touched, a present `time_filter` is never touched,
and `LocalS3Storage.save_parquet` mutates nothing at all. -/
theorem C4_mutation (baseDir : List String) (bucket : String)
    (r : ScrapeResult) (out : LocalSave) (s3out : S3Save) :
    (LocalStorage.save_parquet baseDir r = .ok out →
      out.result =
        { r with time_filter := some (r.time_filter.getD "at_point_in_time") } ∧
      out.result.df = r.df ∧ out.result.api_method = r.api_method ∧
      out.result.subreddit = r.subreddit ∧
      out.result.timestamp = r.timestamp) ∧
    (DataSaver.save_local_parquet baseDir r = .ok out →
      out.result =
        { r with time_filter := some (r.time_filter.getD "at_point_in_time") }) ∧
    (LocalS3Storage.save_parquet bucket r = .ok s3out →
      s3out.result = r) := by
  have hlocal : LocalStorage.save_parquet baseDir r = .ok out →
      out.result =
        { r with time_filter := some (r.time_filter.getD "at_point_in_time") } ∧
      out.result.df = r.df ∧ out.result.api_method = r.api_method ∧
      out.result.subreddit = r.subreddit ∧
      out.result.timestamp = r.timestamp := by
    intro hok
    by_cases he : r.df.rows = []
    · rw [localSave_empty baseDir r he] at hok
      exact absurd hok (by simp)
    · rw [localSave_ok baseDir r he] at hok
      simp only [Except.ok.injEq] at hok
      rw [← hok]
      exact ⟨rfl, rfl, rfl, rfl, rfl⟩
  refine ⟨hlocal, fun hok => (hlocal hok).1, fun hok => ?_⟩
  rw [s3Save_eq bucket r] at hok
  simp only [Except.ok.injEq] at hok
  rw [← hok]

/-- C4, witness: the amended statement evaluated on `hotResult` with the
concrete outcomes `hotLocalOut` and `hotS3Out`. -/
theorem C4_witness :
    (hotLocalOut.result =
      { hotResult with
          time_filter := some (hotResult.time_filter.getD "at_point_in_time") } ∧
     hotLocalOut.result.df = hotResult.df ∧
     hotLocalOut.result.api_method = hotResult.api_method ∧
     hotLocalOut.result.subreddit = hotResult.subreddit ∧
     hotLocalOut.result.timestamp = hotResult.timestamp) ∧
    hotS3Out.result = hotResult :=
  ⟨(C4_mutation ["root"] "programming" hotResult hotLocalOut hotS3Out).1 rfl,
   (C4_mutation ["root"] "programming" hotResult hotLocalOut hotS3Out).2.2 rfl⟩

/-- C5, counterexample: the three "if and only if" clauses fail in the
gallery branch — a gallery submission with absent `gallery_data` has
`num_of_images = 0` but `post_type ≠ "other"`, and one with a single item
has `num_of_images = 1` but `post_type ≠ "single_image"`. -/
theorem C5_counterexample :
    (parseRow subGalleryNoData).num_of_images = 0 ∧
    (parseRow subGalleryNoData).post_type ≠ "other" ∧
    (parseRow subGalleryOne).num_of_images = 1 ∧
    (parseRow subGalleryOne).post_type ≠ "single_image" := by
  decide

/-- C5, amended: the forward implications hold for every normalized row:
`post_type = other` forces `num_of_images = 0`, `post_type = single_image`
forces `num_of_images = 1`, and `post_type = image_gallery` forces
`num_of_images` to equal the gallery item count (0 when unavailable); the
converses fail (see the counterexample). -/
theorem C5_forward (s : Submission) :
    ((parseRow s).post_type = "other" → (parseRow s).num_of_images = 0) ∧
    ((parseRow s).post_type = "single_image" →
      (parseRow s).num_of_images = 1) ∧
    ((parseRow s).post_type = "image_gallery" →
      (parseRow s).num_of_images = galleryCount s) := by
  by_cases hg : s.is_gallery.getD false = true
  · obtain ⟨hpt, hni⟩ := parseRow_gallery s hg
    refine ⟨?_, ?_, fun _ => hni⟩ <;> intro hcontra <;> rw [hpt] at hcontra <;>
      exact absurd hcontra (by decide)
  · have hg' : s.is_gallery.getD false = false := by
      revert hg
      cases s.is_gallery.getD false <;> simp
    by_cases hp : s.post_hint.getD "" = "image"
    · obtain ⟨hpt, hni⟩ := parseRow_image s hg' hp
      refine ⟨?_, fun _ => hni, ?_⟩ <;> intro hcontra <;> rw [hpt] at hcontra <;>
        exact absurd hcontra (by decide)
    · obtain ⟨hpt, hni⟩ := parseRow_other s hg' hp
      refine ⟨fun _ => hni, ?_, ?_⟩ <;> intro hcontra <;> rw [hpt] at hcontra <;>
        exact absurd hcontra (by decide)

/-- C5, witness: the amended implications evaluated on a plain link, a
single-image post and a one-item gallery. -/
theorem C5_witness :
    (parseRow subPlain).num_of_images = 0 ∧
    (parseRow subImage).num_of_images = 1 ∧
    (parseRow subGalleryOne).num_of_images = galleryCount subGalleryOne :=
  ⟨(C5_forward subPlain).1 rfl, (C5_forward subImage).2.1 rfl,
   (C5_forward subGalleryOne).2.2 rfl⟩

/-- C6: the normalizer decides `post_type` / `num_of_images` in strict
priority order: a truthy `is_gallery` wins and yields `image_gallery` with
the gallery item count (0 when `gallery_data` is absent); otherwise
`post_hint = "image"` yields `single_image` with count 1; otherwise
`other` with count 0. -/
theorem C6_priority (s : Submission) :
    (s.is_gallery.getD false = true →
      (parseRow s).post_type = "image_gallery" ∧
      (parseRow s).num_of_images = galleryCount s) ∧
    (s.gallery_data = none → galleryCount s = 0) ∧
    (s.is_gallery.getD false = false → s.post_hint.getD "" = "image" →
      (parseRow s).post_type = "single_image" ∧
      (parseRow s).num_of_images = 1) ∧
    (s.is_gallery.getD false = false → s.post_hint.getD "" ≠ "image" →
      (parseRow s).post_type = "other" ∧ (parseRow s).num_of_images = 0) :=
  ⟨parseRow_gallery s,
   fun h => by unfold galleryCount; rw [h]; rfl,
   parseRow_image s,
   parseRow_other s⟩

/-- C6, witness: each branch of the priority order evaluated on a concrete
submission. -/
theorem C6_witness :
    ((parseRow subGalleryNoData).post_type = "image_gallery" ∧
     (parseRow subGalleryNoData).num_of_images = galleryCount subGalleryNoData) ∧
    galleryCount subGalleryNoData = 0 ∧
    ((parseRow subImage).post_type = "single_image" ∧
     (parseRow subImage).num_of_images = 1) ∧
    ((parseRow subPlain).post_type = "other" ∧
     (parseRow subPlain).num_of_images = 0) :=
  ⟨(C6_priority subGalleryNoData).1 rfl,
   (C6_priority subGalleryNoData).2.1 rfl,
   (C6_priority subImage).2.2.1 rfl rfl,
   (C6_priority subPlain).2.2.2 rfl (by decide)⟩

/-- C7: for every nonempty Scrape Result, the Local backend writes to
exactly `<data-root>/<source_collection>/<fetch_method>/` followed by
`<fetch_method>_<time_filter-or-sentinel>_<fetched_at>.parquet`, and two
results of the same fetch shape with different timestamp tokens get
different destination paths. -/
theorem C7_local_path (baseDir : List String) (r r2 : ScrapeResult)
    (h : r.df.rows ≠ [])
    (hm : r.api_method = r2.api_method)
    (htf : r.time_filter = r2.time_filter)
    (hts : r.timestamp ≠ r2.timestamp) :
    LocalStorage.save_parquet baseDir r =
      .ok { result := { r with
              time_filter := some (r.time_filter.getD "at_point_in_time") },
            path := localPath baseDir r, written := r.df } ∧
    localPath baseDir r ≠ localPath baseDir r2 :=
  ⟨localSave_ok baseDir r h, localPath_timestamp_inj baseDir r r2 hm htf hts⟩

/-- C7, witness: the path equation and collision-freedom evaluated on two
"top" results fetched one second apart. -/
theorem C7_witness :
    LocalStorage.save_parquet ["root"] topResultA =
      .ok { result := { topResultA with
              time_filter := some (topResultA.time_filter.getD "at_point_in_time") },
            path := localPath ["root"] topResultA, written := topResultA.df } ∧
    localPath ["root"] topResultA ≠ localPath ["root"] topResultB :=
  C7_local_path ["root"] topResultA topResultB (by decide) rfl rfl (by decide)

/-- C8: normalization is deterministic — running `parseRow` twice on
identical raw submissions yields identical rows in every column. -/
theorem C8_deterministic (s1 s2 : Submission) (h : s1 = s2) :
    parseRow s1 = parseRow s2 := by
  rw [h]

/-- C8, witness: two runs on the same concrete submission agree. -/
theorem C8_witness : parseRow subImage = parseRow subImage :=
  C8_deterministic subImage subImage rfl

/-- C9: an absent `is_gallery` attribute is read as `False` (the emitted
row's `is_gallery` field is false), an absent `post_hint` behaves exactly
like the empty string, and a submission with neither attribute normalizes
to `post_type = "other"` with `num_of_images = 0`. -/
theorem C9_defaults (s : Submission) :
    (s.is_gallery = none → (parseRow s).is_gallery = false) ∧
    parseRow { s with post_hint := none } =
      parseRow { s with post_hint := some "" } ∧
    (s.is_gallery = none → s.post_hint = none →
      (parseRow s).post_type = "other" ∧ (parseRow s).num_of_images = 0) := by
  refine ⟨?_, rfl, ?_⟩
  · intro h
    unfold parseRow
    simp [h]
  · intro h hp
    exact parseRow_other s (by rw [h]; rfl) (by rw [hp]; decide)

/-- C9, witness: the defaults evaluated on `subPlain`, which lacks both
attributes. -/
theorem C9_witness :
    (parseRow subPlain).is_gallery = false ∧
    ((parseRow subPlain).post_type = "other" ∧
     (parseRow subPlain).num_of_images = 0) :=
  ⟨(C9_defaults subPlain).1 rfl, (C9_defaults subPlain).2.2 rfl rfl⟩

/-- C10: `DataSaver.save_local_parquet` and `LocalStorage.save_parquet`
are behaviorally equivalent on every input — same error exactly when the
table is empty, same destination path and written bytes, and same final
state of the Scrape Result. -/
theorem C10_saver_equiv (baseDir : List String) (r : ScrapeResult) :
    DataSaver.save_local_parquet baseDir r =
      LocalStorage.save_parquet baseDir r :=
  rfl

end SubredditTrends
